import Mathlib

/-!
Verification of the `restore` and `snapshots` CLI commands of litestream
(`cmd/litestream/restore.go`, `cmd/litestream/snapshots.go`).

The two `Run` methods are embedded as pure Lean functions.  External
collaborators (the configuration provider `ReadConfigFile`, the replication
engine's `DB`/`Replica` operations, stdlib helpers `time.Parse`,
`filepath.Abs`, and the repo helpers `isURL`, `expand`, `NewReplicaFromURL`,
`newDBFromConfig`, `Config.DBConfig`) live outside these two files; following
the source's treatment of them as external collaborators they are modelled as
fields of an environment record, universally quantified in the theorems.
Every call to a collaborator, and every line written to standard output, is
recorded in an event trace so that ordering and "never invoked" properties
can be stated.
-/

namespace Litestream

/-- Error values: Go `error` modelled by its message string. -/
abbrev Err := String

/-- A point in time (`time.Time`), kept abstract; only its identity matters. -/
structure Time where
  val : Nat
deriving DecidableEq, Repr

/-- The options record `litestream.RestoreOptions` as consumed by `DB.Restore`.  `Timestamp`'s Go
zero value is modelled as `none`; `Logger` is `some ()` exactly when a
non-nil `log.Logger` is attached. -/
structure RestoreOptions where
  outputPath : String
  replicaName : String
  generation : String
  index : Int
  timestamp : Option Time
  dryRun : Bool
  logger : Option Unit
deriving DecidableEq, Repr

/-- Modelled from the spec: `litestream.NewRestoreOptions` (replication-engine
code, not part of the two embedded files) returns defaults — empty strings,
an index sentinel (here -1) meaning "highest available", zero timestamp,
dry-run off, no logger attached. -/
def NewRestoreOptions : RestoreOptions :=
  { outputPath := ""
    replicaName := ""
    generation := ""
    index := -1
    timestamp := none
    dryRun := false
    logger := none }

/-- The record `litestream.SnapshotInfo` as rendered by the snapshots command. -/
structure SnapshotInfo where
  replica : String
  generation : String
  index : Int
  size : Int
  createdAt : Time
deriving DecidableEq, Repr

/-- Observable events of a command run: each call into an external
collaborator, the construction of the final options value, and each line
written to standard output. -/
inductive Event where
  | configLoad (path : String)
  | parseTimestamp (s : String)
  | absPath (s : String)
  | expandPath (s : String)
  | dbConfigLookup (path : String)
  | newDB
  | optionsBuilt (opt : RestoreOptions)
  | restoreCall (opt : RestoreOptions)
  | replicaFromURL (url : String)
  | dbReplicaLookup (name : String)
  | snapshotsOnReplica
  | snapshotsOnDB
  | stdout (line : String)
deriving DecidableEq, Repr

/-- Result of a command run: the returned `error` (none = nil) and the trace. -/
structure Outcome where
  error : Option Err
  trace : List Event
deriving DecidableEq, Repr

/-- Lines written to standard output, in order. -/
def outputOf (tr : List Event) : List String :=
  tr.filterMap fun e =>
    match e with
    | .stdout s => some s
    | _ => none

def Event.isConfigLoad : Event → Bool
  | .configLoad _ => true
  | _ => false

def Event.isDBConfigLookup : Event → Bool
  | .dbConfigLookup _ => true
  | _ => false

def Event.isNewDB : Event → Bool
  | .newDB => true
  | _ => false

def Event.isRestoreCall : Event → Bool
  | .restoreCall _ => true
  | _ => false

def Event.isDBReplicaLookup : Event → Bool
  | .dbReplicaLookup _ => true
  | _ => false

def Event.isParseTimestamp : Event → Bool
  | .parseTimestamp _ => true
  | _ => false

def Event.isAbsPath : Event → Bool
  | .absPath _ => true
  | _ => false

/-- The `RestoreOptions` values passed to `DB.Restore` during the run. -/
def restoreCallsOf (tr : List Event) : List RestoreOptions :=
  tr.filterMap fun e =>
    match e with
    | .restoreCall o => some o
    | _ => none

/-- The `RestoreOptions` values as of the end of options construction
(right after the logger-attachment step). -/
def optionsBuiltOf (tr : List Event) : List RestoreOptions :=
  tr.filterMap fun e =>
    match e with
    | .optionsBuilt o => some o
    | _ => none

/-- Go `filepath.IsAbs` on Unix: the path begins with a slash. -/
def isAbs (s : String) : Bool :=
  match s.data with
  | [] => false
  | c :: _ => c == '/'

/-- External collaborators of the restore command (config provider,
replication engine, stdlib time/path helpers), with the collaborator-owned
types `Config`, `DBConfig` and `DB` kept abstract. -/
structure RestoreEnv (Config DBConfig DB : Type) where
  readConfigFile : String → Except Err Config
  parseRFC3339 : String → Option Time
  abs : String → Except Err String
  dbConfigOf : Config → String → Option DBConfig
  newDBFromConfig : Config → DBConfig → Except Err DB
  restore : DB → RestoreOptions → Option Err

/-- Flag values of the restore command after `flag.FlagSet.Parse`:
`-config`, `-o`, `-replica`, `-generation`, `-index`, `-dry-run`,
`-timestamp`, `-v`. -/
structure RestoreFlags where
  configPath : String
  o : String
  replica : String
  generation : String
  index : Int
  dryRun : Bool
  timestamp : String
  v : Bool
deriving DecidableEq, Repr

/-- The error message of the restore command for a malformed `-timestamp`. -/
def invalidTimestampMsg : Err :=
  "invalid -timestamp, must specify in ISO 8601 format (e.g. 2000-01-01T00:00:00Z)"

/-- Embedding of `RestoreCommand.Run` (`cmd/litestream/restore.go`), after `fs.Parse` has
populated the flag variables; `args` are the positional arguments
(`fs.Args()`, with `fs.Arg 0` = `args.getD 0 ""`). -/
def RestoreCommand.Run {C DC D : Type} (env : RestoreEnv C DC D)
    (fl : RestoreFlags) (args : List String) : Outcome :=
  let opt0 : RestoreOptions :=
    { NewRestoreOptions with
      outputPath := fl.o
      replicaName := fl.replica
      generation := fl.generation
      index := fl.index
      dryRun := fl.dryRun }
  if args.length = 0 ∨ args.getD 0 "" = "" then
    { error := some "database path or replica URL required", trace := [] }
  else if 1 < args.length then
    { error := some "too many arguments", trace := [] }
  else if fl.configPath = "" then
    { error := some "-config required", trace := [] }
  else
    match env.readConfigFile fl.configPath with
    | .error e => { error := some e, trace := [.configLoad fl.configPath] }
    | .ok config =>
      let tr1 : List Event :=
        if fl.timestamp = "" then [.configLoad fl.configPath]
        else [.configLoad fl.configPath, .parseTimestamp fl.timestamp]
      let parsed : Option (Option Time) :=
        if fl.timestamp = "" then some none
        else
          match env.parseRFC3339 fl.timestamp with
          | none => none
          | some t => some (some t)
      match parsed with
      | none => { error := some invalidTimestampMsg, trace := tr1 }
      | some ts =>
        let verbose := fl.v || fl.dryRun
        let opt1 : RestoreOptions :=
          { opt0 with
            timestamp := ts
            logger := if verbose then some () else none }
        let tr2 := tr1 ++ [.optionsBuilt opt1]
        match env.abs (args.getD 0 "") with
        | .error e => { error := some e, trace := tr2 ++ [.absPath (args.getD 0 "")] }
        | .ok dbPath =>
          let tr3 := tr2 ++ [.absPath (args.getD 0 "")]
          match env.dbConfigOf config dbPath with
          | none =>
            { error := some ("database not found in config: " ++ dbPath)
              trace := tr3 ++ [.dbConfigLookup dbPath] }
          | some dbc =>
            let tr4 := tr3 ++ [.dbConfigLookup dbPath]
            match env.newDBFromConfig config dbc with
            | .error e => { error := some e, trace := tr4 ++ [.newDB] }
            | .ok db =>
              { error := env.restore db opt1
                trace := tr4 ++ [.newDB, .restoreCall opt1] }

/-- External collaborators of the snapshots command, with the
collaborator-owned types `Config`, `DBConfig`, `DB` and `Replica` kept
abstract.  `dbPath` is `DB.Path()`, `dbReplica` is `DB.Replica(name)`. -/
structure SnapEnv (Config DBConfig DB Replica : Type) where
  isURL : String → Bool
  newReplicaFromURL : String → Except Err Replica
  readConfigFile : String → Except Err Config
  expand : String → Except Err String
  dbConfigOf : Config → String → Option DBConfig
  newDBFromConfig : Config → DBConfig → Except Err DB
  dbReplica : DB → String → Option Replica
  dbPath : DB → String
  replicaSnapshots : Replica → Except Err (List SnapshotInfo)
  dbSnapshots : DB → Except Err (List SnapshotInfo)
  formatRFC3339 : Time → String

/-- Flag values of the snapshots command after parsing: `-config`, `-replica`. -/
structure SnapFlags where
  configPath : String
  replica : String
deriving DecidableEq, Repr

/-- Header row of the snapshots table. -/
def headerLine : String := "replica\tgeneration\tindex\tsize\tcreated"

/-- One data row of the snapshots table (tab-separated columns as handed to
the tabwriter). -/
def snapshotRow {C DC D R : Type} (env : SnapEnv C DC D R)
    (info : SnapshotInfo) : String :=
  info.replica ++ "\t" ++ info.generation ++ "\t" ++ toString info.index ++
    "\t" ++ toString info.size ++ "\t" ++ env.formatRFC3339 info.createdAt

/-- The query-and-render tail of `SnapshotsCommand.Run`: query snapshots on
the resolved replica (left) or database (right), then print the table. -/
def querySnapshots {C DC D R : Type} (env : SnapEnv C DC D R)
    (src : R ⊕ D) (tr : List Event) : Outcome :=
  match src with
  | .inl r =>
    match env.replicaSnapshots r with
    | .error e => { error := some e, trace := tr ++ [.snapshotsOnReplica] }
    | .ok infos =>
      { error := none
        trace := tr ++ .snapshotsOnReplica :: .stdout headerLine ::
          infos.map (fun i => .stdout (snapshotRow env i)) }
  | .inr db =>
    match env.dbSnapshots db with
    | .error e => { error := some e, trace := tr ++ [.snapshotsOnDB] }
    | .ok infos =>
      { error := none
        trace := tr ++ .snapshotsOnDB :: .stdout headerLine ::
          infos.map (fun i => .stdout (snapshotRow env i)) }

/-- Embedding of `SnapshotsCommand.Run` (`cmd/litestream/snapshots.go`), after `fs.Parse`
has populated the flag variables. -/
def SnapshotsCommand.Run {C DC D R : Type} (env : SnapEnv C DC D R)
    (fl : SnapFlags) (args : List String) : Outcome :=
  if args.length = 0 ∨ args.getD 0 "" = "" then
    { error := some "database path required", trace := [] }
  else if 1 < args.length then
    { error := some "too many arguments", trace := [] }
  else
    let arg := args.getD 0 ""
    if env.isURL arg then
      match env.newReplicaFromURL arg with
      | .error e => { error := some e, trace := [.replicaFromURL arg] }
      | .ok r => querySnapshots env (.inl r) [.replicaFromURL arg]
    else if fl.configPath ≠ "" then
      match env.readConfigFile fl.configPath with
      | .error e => { error := some e, trace := [.configLoad fl.configPath] }
      | .ok config =>
        match env.expand arg with
        | .error e =>
          { error := some e
            trace := [.configLoad fl.configPath, .expandPath arg] }
        | .ok path =>
          let tr := [.configLoad fl.configPath, .expandPath arg,
            .dbConfigLookup path]
          match env.dbConfigOf config path with
          | none =>
            { error := some ("database not found in config: " ++ path)
              trace := tr }
          | some dbc =>
            match env.newDBFromConfig config dbc with
            | .error e => { error := some e, trace := tr ++ [.newDB] }
            | .ok db =>
              if fl.replica ≠ "" then
                match env.dbReplica db fl.replica with
                | none =>
                  { error := some ("replica \"" ++ fl.replica ++
                      "\" not found for database \"" ++ env.dbPath db ++ "\"")
                    trace := tr ++ [.newDB, .dbReplicaLookup fl.replica] }
                | some r =>
                  querySnapshots env (.inl r)
                    (tr ++ [.newDB, .dbReplicaLookup fl.replica])
              else
                querySnapshots env (.inr db) (tr ++ [.newDB])
    else
      { error := some "config path or replica URL required", trace := [] }

/-! ## Concrete collaborator worlds, used by witnesses and counterexamples -/

/-- A concrete restore-collaborator world: config loads succeed, every path is
in the config, the engine restore succeeds, and only the RFC3339 string
`2000-01-01T00:00:00Z` parses as a timestamp. -/
def wEnv : RestoreEnv Unit Unit Unit :=
  { readConfigFile := fun _ => .ok ()
    parseRFC3339 := fun s => if s = "2000-01-01T00:00:00Z" then some ⟨0⟩ else none
    abs := fun s => .ok ("/data/" ++ s)
    dbConfigOf := fun _ _ => some ()
    newDBFromConfig := fun _ _ => .ok ()
    restore := fun _ _ => none }

/-- Restore flags with every flag left at its default. -/
def flags0 : RestoreFlags :=
  { configPath := ""
    o := ""
    replica := ""
    generation := ""
    index := -1
    dryRun := false
    timestamp := ""
    v := false }

/-- A concrete snapshots-collaborator world: exactly the string
`s3://bkt/db` counts as a URL, the config branch succeeds, the database has
no named replicas, and both snapshot queries return an empty inventory. -/
def sEnvBase : SnapEnv Unit Unit Unit Unit :=
  { isURL := fun s => s == "s3://bkt/db"
    newReplicaFromURL := fun _ => .ok ()
    readConfigFile := fun _ => .ok ()
    expand := fun s => .ok ("/data/" ++ s)
    dbConfigOf := fun _ _ => some ()
    newDBFromConfig := fun _ _ => .ok ()
    dbReplica := fun _ _ => none
    dbPath := fun _ => "/data/db"
    replicaSnapshots := fun _ => .ok []
    dbSnapshots := fun _ => .ok []
    formatRFC3339 := fun _ => "2000-01-01T00:00:00Z" }

/-- Snapshots flags with every flag left at its default. -/
def sFlags0 : SnapFlags :=
  { configPath := ""
    replica := "" }

/-! ## Claims -/

/-- C8: for every input with zero positional arguments (or an empty first
argument) or with two or more positional arguments, both the restore command
and the snapshots command fail with a usage error and perform no
configuration load and no call into the replication engine (empty trace). -/
theorem C8_usage_error_no_side_effects {C DC D C' DC' D' R' : Type}
    (env : RestoreEnv C DC D) (senv : SnapEnv C' DC' D' R')
    (fl : RestoreFlags) (sfl : SnapFlags) (args : List String)
    (hbad : args.length = 0 ∨ args.getD 0 "" = "" ∨ 1 < args.length) :
    ((RestoreCommand.Run env fl args).error.isSome = true ∧
      (RestoreCommand.Run env fl args).trace = []) ∧
    ((SnapshotsCommand.Run senv sfl args).error.isSome = true ∧
      (SnapshotsCommand.Run senv sfl args).trace = []) := by
  by_cases h1 : args.length = 0 ∨ args.getD 0 "" = ""
  · simp only [RestoreCommand.Run, SnapshotsCommand.Run, if_pos h1]
    simp
  · have h2 : 1 < args.length := by
      rcases hbad with h | h | h
      · exact absurd (Or.inl h) h1
      · exact absurd (Or.inr h) h1
      · exact h
    simp only [RestoreCommand.Run, SnapshotsCommand.Run, if_neg h1, if_pos h2]
    simp

/-- C8 witness: both commands at the empty argument list. -/
theorem C8_witness :
    (([] : List String).length = 0 ∨ ([] : List String).getD 0 "" = "" ∨
      1 < ([] : List String).length) ∧
    (((RestoreCommand.Run wEnv flags0 []).error.isSome = true ∧
        (RestoreCommand.Run wEnv flags0 []).trace = []) ∧
      ((SnapshotsCommand.Run sEnvBase sFlags0 []).error.isSome = true ∧
        (SnapshotsCommand.Run sEnvBase sFlags0 []).trace = [])) :=
  ⟨Or.inl rfl,
    C8_usage_error_no_side_effects wEnv sEnvBase flags0 sFlags0 [] (Or.inl rfl)⟩

/-- C9: a restore invocation with a valid argument count but an empty
`-config` path fails with the configuration-required error before any
configuration load, timestamp parsing, path resolution, or engine call
(the trace is empty). -/
theorem C9_config_required_first {C DC D : Type}
    (env : RestoreEnv C DC D) (fl : RestoreFlags) (a : String)
    (ha : a ≠ "") (hc : fl.configPath = "") :
    (RestoreCommand.Run env fl [a]).error = some "-config required" ∧
    (RestoreCommand.Run env fl [a]).trace = [] := by
  simp [RestoreCommand.Run, ha, hc]

/-- C9 witness: restore of `db` with no `-config`. -/
theorem C9_witness :
    (("db" : String) ≠ "" ∧ flags0.configPath = "") ∧
    ((RestoreCommand.Run wEnv flags0 ["db"]).error = some "-config required" ∧
      (RestoreCommand.Run wEnv flags0 ["db"]).trace = []) :=
  ⟨⟨by decide, rfl⟩, C9_config_required_first wEnv flags0 "db" (by decide) rfl⟩

/-- C1 as stated is false; this is the amended form: with a malformed
`-timestamp` the run fails (with the invalid-timestamp error once it gets
that far), and no database lookup, database-handle construction, or restore
call ever occurs — but the configuration file has already been loaded, so the
configuration provider does not record zero calls (see the counterexample). -/
theorem C1_malformed_timestamp_stops_before_db_lookup {C DC D : Type}
    (env : RestoreEnv C DC D) (fl : RestoreFlags) (args : List String)
    (hts : fl.timestamp ≠ "") (hbad : env.parseRFC3339 fl.timestamp = none) :
    (RestoreCommand.Run env fl args).error.isSome = true ∧
    (RestoreCommand.Run env fl args).trace.countP Event.isDBConfigLookup = 0 ∧
    (RestoreCommand.Run env fl args).trace.countP Event.isNewDB = 0 ∧
    (RestoreCommand.Run env fl args).trace.countP Event.isRestoreCall = 0 := by
  by_cases h1 : args.length = 0 ∨ args.getD 0 "" = ""
  · simp only [RestoreCommand.Run, if_pos h1]
    simp
  · by_cases h2 : 1 < args.length
    · simp only [RestoreCommand.Run, if_neg h1, if_pos h2]
      simp
    · by_cases h3 : fl.configPath = ""
      · simp only [RestoreCommand.Run, if_neg h1, if_neg h2, if_pos h3]
        simp
      · cases hcfg : env.readConfigFile fl.configPath with
        | error e =>
          simp only [RestoreCommand.Run, if_neg h1, if_neg h2, if_neg h3, hcfg]
          simp [Event.isDBConfigLookup, Event.isNewDB, Event.isRestoreCall]
        | ok config =>
          simp only [RestoreCommand.Run, if_neg h1, if_neg h2, if_neg h3, hcfg,
            if_neg hts, hbad]
          simp [Event.isDBConfigLookup, Event.isNewDB, Event.isRestoreCall]

/-- C1 flags: a config path plus a malformed timestamp string. -/
def flC1 : RestoreFlags := { flags0 with configPath := "etc.yml", timestamp := "bogus" }

/-- C1 counterexample: with the malformed timestamp `bogus` the run fails
with the invalid-timestamp error, but the configuration provider has been
invoked exactly once — not the zero calls the claim requires. -/
theorem C1_counterexample :
    (RestoreCommand.Run wEnv flC1 ["db"]).error = some invalidTimestampMsg ∧
    (RestoreCommand.Run wEnv flC1 ["db"]).trace.countP Event.isConfigLoad = 1 := by
  constructor <;> rfl

/-- C1 witness for the amended theorem, at the same malformed input. -/
theorem C1_witness :
    (flC1.timestamp ≠ "" ∧ wEnv.parseRFC3339 flC1.timestamp = none) ∧
    ((RestoreCommand.Run wEnv flC1 ["db"]).error.isSome = true ∧
      (RestoreCommand.Run wEnv flC1 ["db"]).trace.countP Event.isDBConfigLookup = 0 ∧
      (RestoreCommand.Run wEnv flC1 ["db"]).trace.countP Event.isNewDB = 0 ∧
      (RestoreCommand.Run wEnv flC1 ["db"]).trace.countP Event.isRestoreCall = 0) :=
  ⟨⟨by decide, by decide⟩,
    C1_malformed_timestamp_stops_before_db_lookup wEnv flC1 ["db"]
      (by decide) (by decide)⟩

/-- C2 as stated is false; this is the amended form: the `OutputPath` of
every `RestoreOptions` value passed to `Restore` is exactly the `-o` flag
value, passed through verbatim (possibly empty or relative); it is the
positional database-path argument, not `OutputPath`, that is resolved to an
absolute path. -/
theorem C2_outputPath_is_o_flag {C DC D : Type} (env : RestoreEnv C DC D)
    (fl : RestoreFlags) (args : List String) :
    ((restoreCallsOf (RestoreCommand.Run env fl args).trace).all
      fun o => o.outputPath == fl.o) = true := by
  by_cases h1 : args.length = 0 ∨ args.getD 0 "" = ""
  · simp only [RestoreCommand.Run, if_pos h1]
    simp [restoreCallsOf]
  · by_cases h2 : 1 < args.length
    · simp only [RestoreCommand.Run, if_neg h1, if_pos h2]
      simp [restoreCallsOf]
    · by_cases h3 : fl.configPath = ""
      · simp only [RestoreCommand.Run, if_neg h1, if_neg h2, if_pos h3]
        simp [restoreCallsOf]
      · simp only [RestoreCommand.Run, if_neg h1, if_neg h2, if_neg h3]
        repeat' split
        all_goals simp [restoreCallsOf]

/-- C2 flags: a config path plus a relative `-o` output path. -/
def flC2 : RestoreFlags := { flags0 with configPath := "etc.yml", o := "out.db" }

/-- C2 counterexample: the run reaches `Restore` with
`OutputPath = "out.db"`, a relative path — refuting "always an absolute
path". -/
theorem C2_counterexample :
    (restoreCallsOf (RestoreCommand.Run wEnv flC2 ["db"]).trace).map
      RestoreOptions.outputPath = ["out.db"] ∧
    isAbs "out.db" = false := by
  constructor <;> rfl

/-- Holds exactly when the logger of every options value built or passed to
`Restore` in this event is attached (non-nil). -/
def Event.loggerAttached : Event → Bool
  | .optionsBuilt o => o.logger.isSome
  | .restoreCall o => o.logger.isSome
  | _ => true

/-- C4: whenever `-dry-run` is set, every `RestoreOptions` value the run
constructs (and in particular any passed to `Restore`) has a non-nil logger,
regardless of the `-v` value. -/
theorem C4_dry_run_attaches_logger {C DC D : Type} (env : RestoreEnv C DC D)
    (fl : RestoreFlags) (args : List String) (hdry : fl.dryRun = true) :
    ((RestoreCommand.Run env fl args).trace.all Event.loggerAttached) = true := by
  by_cases h1 : args.length = 0 ∨ args.getD 0 "" = ""
  · simp only [RestoreCommand.Run, if_pos h1]
    simp
  · by_cases h2 : 1 < args.length
    · simp only [RestoreCommand.Run, if_neg h1, if_pos h2]
      simp
    · by_cases h3 : fl.configPath = ""
      · simp only [RestoreCommand.Run, if_neg h1, if_neg h2, if_pos h3]
        simp
      · simp only [RestoreCommand.Run, if_neg h1, if_neg h2, if_neg h3]
        repeat' split
        all_goals simp_all [Event.loggerAttached]

/-- C4 flags: dry run requested, `-v` left false. -/
def flC4 : RestoreFlags := { flags0 with configPath := "etc.yml", dryRun := true }

/-- C4 witness: a dry-run invocation with `-v` false; the run builds one
options value and it reaches `Restore`, logger attached. -/
theorem C4_witness :
    flC4.dryRun = true ∧
    ((RestoreCommand.Run wEnv flC4 ["db"]).trace.all Event.loggerAttached = true ∧
      (restoreCallsOf (RestoreCommand.Run wEnv flC4 ["db"]).trace).length = 1) :=
  ⟨rfl, C4_dry_run_attaches_logger wEnv flC4 ["db"] rfl, rfl⟩

/-- C3: when the positional argument is recognized as a replica URL, the
configuration provider is never invoked — even if `-config` was supplied —
and the replica is constructed directly from the URL. -/
theorem C3_url_bypasses_config {C DC D R : Type} (env : SnapEnv C DC D R)
    (fl : SnapFlags) (arg : String) (ha : arg ≠ "")
    (hurl : env.isURL arg = true) :
    (SnapshotsCommand.Run env fl [arg]).trace.countP Event.isConfigLoad = 0 ∧
    Event.replicaFromURL arg ∈ (SnapshotsCommand.Run env fl [arg]).trace := by
  cases hrep : env.newReplicaFromURL arg with
  | error e =>
    simp [SnapshotsCommand.Run, ha, hurl, hrep, Event.isConfigLoad]
  | ok r =>
    cases hsnap : env.replicaSnapshots r with
    | error e =>
      simp [SnapshotsCommand.Run, querySnapshots, ha, hurl, hrep, hsnap,
        Event.isConfigLoad]
    | ok infos =>
      simp [SnapshotsCommand.Run, querySnapshots, ha, hurl, hrep, hsnap,
        Event.isConfigLoad, Function.comp]

/-- C3 snapshots flags: a config path is supplied alongside the URL. -/
def sFlagsCfg : SnapFlags := { configPath := "cfg.yml", replica := "" }

/-- C3 witness: a URL argument with `-config` also supplied. -/
theorem C3_witness :
    (("s3://bkt/db" : String) ≠ "" ∧ sEnvBase.isURL "s3://bkt/db" = true) ∧
    ((SnapshotsCommand.Run sEnvBase sFlagsCfg ["s3://bkt/db"]).trace.countP
        Event.isConfigLoad = 0 ∧
      Event.replicaFromURL "s3://bkt/db" ∈
        (SnapshotsCommand.Run sEnvBase sFlagsCfg ["s3://bkt/db"]).trace) :=
  ⟨⟨by decide, by decide⟩,
    C3_url_bypasses_config sEnvBase sFlagsCfg "s3://bkt/db"
      (by decide) (by decide)⟩

def Event.isQuery : Event → Bool
  | .snapshotsOnReplica => true
  | .snapshotsOnDB => true
  | _ => false

/-- Every snapshots run either fails during resolution — with a trace free of
query events and of output — or hands a resolved source to the
query-and-render tail, with everything before the query free of output. -/
lemma snapshots_run_shape {C DC D R : Type} (env : SnapEnv C DC D R)
    (fl : SnapFlags) (args : List String) :
    (∃ er tr₀, SnapshotsCommand.Run env fl args =
        { error := some er, trace := tr₀ } ∧
      outputOf tr₀ = [] ∧ tr₀.countP Event.isQuery = 0) ∨
    (∃ src tr₀, SnapshotsCommand.Run env fl args = querySnapshots env src tr₀ ∧
      outputOf tr₀ = [] ∧ tr₀.countP Event.isQuery = 0) := by
  simp only [SnapshotsCommand.Run]
  repeat' split
  all_goals
    first
      | (left
         refine ⟨_, _, rfl, ?_, ?_⟩ <;>
           simp [outputOf, Event.isQuery, List.countP_cons])
      | (right
         refine ⟨_, _, rfl, ?_, ?_⟩ <;>
           simp [outputOf, Event.isQuery, List.countP_cons])

/-- When both engine snapshot queries return the error `e`, the
query-and-render tail returns `e` and adds no output. -/
lemma querySnapshots_error {C DC D R : Type} {env : SnapEnv C DC D R}
    {e : Err} (hr : env.replicaSnapshots = fun _ => .error e)
    (hd : env.dbSnapshots = fun _ => .error e) (src : R ⊕ D)
    (tr : List Event) :
    (querySnapshots env src tr).error = some e ∧
    outputOf (querySnapshots env src tr).trace = outputOf tr := by
  cases src with
  | inl r => simp [querySnapshots, hr, outputOf]
  | inr d => simp [querySnapshots, hd, outputOf]

/-- When both engine snapshot queries return an empty inventory, the
query-and-render tail succeeds and adds exactly the header row. -/
lemma querySnapshots_empty {C DC D R : Type} {env : SnapEnv C DC D R}
    (hr : env.replicaSnapshots = fun _ => .ok [])
    (hd : env.dbSnapshots = fun _ => .ok []) (src : R ⊕ D)
    (tr : List Event) :
    (querySnapshots env src tr).error = none ∧
    outputOf (querySnapshots env src tr).trace = outputOf tr ++ [headerLine] := by
  cases src with
  | inl r => simp [querySnapshots, hr, outputOf]
  | inr d => simp [querySnapshots, hd, outputOf]

/-- C5: if the engine's snapshot query fails with error `e` and the run
actually performed a query, the command returns `e` and prints nothing —
no header and no rows. -/
theorem C5_query_error_aborts_unprinted {C DC D R : Type}
    (env : SnapEnv C DC D R) (fl : SnapFlags) (args : List String) (e : Err)
    (hr : env.replicaSnapshots = fun _ => .error e)
    (hd : env.dbSnapshots = fun _ => .error e)
    (hq : Event.snapshotsOnReplica ∈ (SnapshotsCommand.Run env fl args).trace ∨
      Event.snapshotsOnDB ∈ (SnapshotsCommand.Run env fl args).trace) :
    (SnapshotsCommand.Run env fl args).error = some e ∧
    outputOf (SnapshotsCommand.Run env fl args).trace = [] := by
  rcases snapshots_run_shape env fl args with
    ⟨er, tr₀, heq, hout, hcnt⟩ | ⟨src, tr₀, heq, hout, hcnt⟩
  · exfalso
    rw [heq] at hq
    rcases hq with hq | hq
    · exact List.countP_eq_zero.mp hcnt _ hq rfl
    · exact List.countP_eq_zero.mp hcnt _ hq rfl
  · rw [heq]
    rcases querySnapshots_error hr hd src tr₀ with ⟨he, ho⟩
    exact ⟨he, by rw [ho, hout]⟩

/-- The snapshots-collaborator world whose engine queries always fail. -/
def sEnvErr : SnapEnv Unit Unit Unit Unit :=
  { sEnvBase with
    replicaSnapshots := fun _ => .error "query failed"
    dbSnapshots := fun _ => .error "query failed" }

/-- C5 witness: a failing query over a replica URL returns the query error
and prints nothing. -/
theorem C5_witness :
    (sEnvErr.replicaSnapshots = (fun _ => .error "query failed") ∧
      sEnvErr.dbSnapshots = (fun _ => .error "query failed") ∧
      Event.snapshotsOnReplica ∈
        (SnapshotsCommand.Run sEnvErr sFlags0 ["s3://bkt/db"]).trace) ∧
    ((SnapshotsCommand.Run sEnvErr sFlags0 ["s3://bkt/db"]).error =
        some "query failed" ∧
      outputOf (SnapshotsCommand.Run sEnvErr sFlags0 ["s3://bkt/db"]).trace = []) :=
  ⟨⟨rfl, rfl, by decide⟩,
    C5_query_error_aborts_unprinted sEnvErr sFlags0 ["s3://bkt/db"]
      "query failed" rfl rfl (Or.inl (by decide))⟩

/-- C6: with a non-URL argument, a config path, a database found in the
configuration, and a `-replica` name the database does not have, the
snapshots command fails with the replica-not-found error naming both the
replica and the database path, and prints no table. -/
theorem C6_replica_not_found {C DC D R : Type} (env : SnapEnv C DC D R)
    (fl : SnapFlags) (arg : String) (config : C) (dbc : DC) (db : D)
    (path : String) (ha : arg ≠ "") (hurl : env.isURL arg = false)
    (hc : fl.configPath ≠ "")
    (hread : env.readConfigFile fl.configPath = .ok config)
    (hexp : env.expand arg = .ok path)
    (hdbc : env.dbConfigOf config path = some dbc)
    (hnew : env.newDBFromConfig config dbc = .ok db)
    (hrn : fl.replica ≠ "")
    (hlook : env.dbReplica db fl.replica = none) :
    (SnapshotsCommand.Run env fl [arg]).error =
      some ("replica \"" ++ fl.replica ++ "\" not found for database \"" ++
        env.dbPath db ++ "\"") ∧
    outputOf (SnapshotsCommand.Run env fl [arg]).trace = [] := by
  simp [SnapshotsCommand.Run, ha, hurl, hc, hread, hexp, hdbc, hnew, hrn,
    hlook, outputOf]

/-- C6 snapshots flags: config path plus a replica name the database lacks. -/
def sFlagsC6 : SnapFlags := { configPath := "cfg.yml", replica := "s3" }

/-- C6 witness: looking up replica `s3` on a database with no replicas. -/
theorem C6_witness :
    (("db" : String) ≠ "" ∧ sEnvBase.isURL "db" = false ∧
      sFlagsC6.configPath ≠ "" ∧
      sEnvBase.readConfigFile sFlagsC6.configPath = .ok () ∧
      sEnvBase.expand "db" = .ok "/data/db" ∧
      sEnvBase.dbConfigOf () "/data/db" = some () ∧
      sEnvBase.newDBFromConfig () () = .ok () ∧
      sFlagsC6.replica ≠ "" ∧
      sEnvBase.dbReplica () sFlagsC6.replica = none) ∧
    ((SnapshotsCommand.Run sEnvBase sFlagsC6 ["db"]).error =
        some ("replica \"" ++ sFlagsC6.replica ++
          "\" not found for database \"" ++ sEnvBase.dbPath () ++ "\"") ∧
      outputOf (SnapshotsCommand.Run sEnvBase sFlagsC6 ["db"]).trace = []) :=
  ⟨⟨by decide, by decide, by decide, rfl, rfl, rfl, rfl, by decide, rfl⟩,
    C6_replica_not_found sEnvBase sFlagsC6 "db" () () () "/data/db"
      (by decide) (by decide) (by decide) rfl rfl rfl rfl (by decide) rfl⟩

/-- C7: if the engine's snapshot queries return an empty inventory and the
run actually performed a query, the command succeeds and its output is
exactly the header row. -/
theorem C7_zero_snapshots_header_only {C DC D R : Type}
    (env : SnapEnv C DC D R) (fl : SnapFlags) (args : List String)
    (hr : env.replicaSnapshots = fun _ => .ok [])
    (hd : env.dbSnapshots = fun _ => .ok [])
    (hq : Event.snapshotsOnReplica ∈ (SnapshotsCommand.Run env fl args).trace ∨
      Event.snapshotsOnDB ∈ (SnapshotsCommand.Run env fl args).trace) :
    (SnapshotsCommand.Run env fl args).error = none ∧
    outputOf (SnapshotsCommand.Run env fl args).trace = [headerLine] := by
  rcases snapshots_run_shape env fl args with
    ⟨er, tr₀, heq, hout, hcnt⟩ | ⟨src, tr₀, heq, hout, hcnt⟩
  · exfalso
    rw [heq] at hq
    rcases hq with hq | hq
    · exact List.countP_eq_zero.mp hcnt _ hq rfl
    · exact List.countP_eq_zero.mp hcnt _ hq rfl
  · rw [heq]
    rcases querySnapshots_empty hr hd src tr₀ with ⟨he, ho⟩
    refine ⟨he, ?_⟩
    rw [ho, hout]
    simp

/-- C7 witness: zero snapshots over a replica URL gives success and only the
header row. -/
theorem C7_witness :
    (sEnvBase.replicaSnapshots = (fun _ => .ok []) ∧
      sEnvBase.dbSnapshots = (fun _ => .ok []) ∧
      Event.snapshotsOnReplica ∈
        (SnapshotsCommand.Run sEnvBase sFlags0 ["s3://bkt/db"]).trace) ∧
    ((SnapshotsCommand.Run sEnvBase sFlags0 ["s3://bkt/db"]).error = none ∧
      outputOf (SnapshotsCommand.Run sEnvBase sFlags0 ["s3://bkt/db"]).trace =
        [headerLine]) :=
  ⟨⟨rfl, rfl, by decide⟩,
    C7_zero_snapshots_header_only sEnvBase sFlags0 ["s3://bkt/db"]
      rfl rfl (Or.inl (by decide))⟩

/-- C10: with a URL argument (and the replica successfully constructed from
it), the `-replica` flag is silently ignored: the outcome is identical to the
run with the flag empty, no replica-name lookup and no config lookup occurs,
and the snapshots are queried on the URL-constructed replica, never on a
database. -/
theorem C10_url_ignores_replica_flag {C DC D R : Type}
    (env : SnapEnv C DC D R) (fl : SnapFlags) (arg : String) (r : R)
    (ha : arg ≠ "") (hurl : env.isURL arg = true)
    (hok : env.newReplicaFromURL arg = .ok r) :
    SnapshotsCommand.Run env fl [arg] =
      SnapshotsCommand.Run env { fl with replica := "" } [arg] ∧
    (SnapshotsCommand.Run env fl [arg]).trace.countP
      Event.isDBReplicaLookup = 0 ∧
    (SnapshotsCommand.Run env fl [arg]).trace.countP
      Event.isDBConfigLookup = 0 ∧
    Event.snapshotsOnReplica ∈ (SnapshotsCommand.Run env fl [arg]).trace ∧
    Event.snapshotsOnDB ∉ (SnapshotsCommand.Run env fl [arg]).trace := by
  cases hsnap : env.replicaSnapshots r with
  | error e =>
    simp [SnapshotsCommand.Run, querySnapshots, ha, hurl, hok, hsnap,
      Event.isDBReplicaLookup, Event.isDBConfigLookup]
  | ok infos =>
    simp [SnapshotsCommand.Run, querySnapshots, ha, hurl, hok, hsnap,
      Event.isDBReplicaLookup, Event.isDBConfigLookup, Function.comp]

/-- C10 snapshots flags: a URL argument with a `-replica` name supplied. -/
def sFlagsC10 : SnapFlags := { configPath := "cfg.yml", replica := "other" }

/-- C10 witness: the `-replica other` flag is ignored for a URL argument. -/
theorem C10_witness :
    (("s3://bkt/db" : String) ≠ "" ∧ sEnvBase.isURL "s3://bkt/db" = true ∧
      sEnvBase.newReplicaFromURL "s3://bkt/db" = .ok ()) ∧
    (SnapshotsCommand.Run sEnvBase sFlagsC10 ["s3://bkt/db"] =
        SnapshotsCommand.Run sEnvBase { sFlagsC10 with replica := "" }
          ["s3://bkt/db"] ∧
      (SnapshotsCommand.Run sEnvBase sFlagsC10 ["s3://bkt/db"]).trace.countP
        Event.isDBReplicaLookup = 0 ∧
      (SnapshotsCommand.Run sEnvBase sFlagsC10 ["s3://bkt/db"]).trace.countP
        Event.isDBConfigLookup = 0 ∧
      Event.snapshotsOnReplica ∈
        (SnapshotsCommand.Run sEnvBase sFlagsC10 ["s3://bkt/db"]).trace ∧
      Event.snapshotsOnDB ∉
        (SnapshotsCommand.Run sEnvBase sFlagsC10 ["s3://bkt/db"]).trace) :=
  ⟨⟨by decide, by decide, rfl⟩,
    C10_url_ignores_replica_flag sEnvBase sFlagsC10 "s3://bkt/db" ()
      (by decide) (by decide) rfl⟩

end Litestream
